import Mathlib

/-!
Verification of the request/reply IPC bridge in `src/background/preload.ts`
of Seelen-UI.

The bridge client runs in the sandboxed renderer process.  It sends
one-way messages on named channels via `ipcRenderer.send`, and for
request-response operations it registers a listener on a fixed reply
channel via `ipcRenderer.on` (a persistent listener: `on`, not `once`,
and no `removeListener` call appears anywhere in the file) and settles a
freshly created `Promise` from the delivered `(result, error)` pair.

The embedding below models JavaScript values, promise settlement
(idempotent by ECMAScript semantics: `resolve`/`reject` on an already
settled promise is a no-op), the listener table of `ipcRenderer`, and
each of the five API functions of the `api` object, literally following
the source.
-/

namespace SeelenBridge

/-- A JavaScript value as it crosses the IPC boundary: `undefined`,
`null`, booleans, numbers (modelled as integers), strings, and opaque
structured-cloneable objects identified by a tag.  Payloads are opaque
to the bridge, so object identity is all that matters. -/
inductive JSValue where
  | undefined
  | null
  | bool (b : Bool)
  | num (n : Int)
  | str (s : String)
  | obj (id : Nat)
  deriving DecidableEq, Repr

/-- JavaScript truthiness, as tested by `if (error)` in the source:
`undefined`, `null`, `false`, `0` and the empty string are falsy;
every object is truthy. -/
def truthy : JSValue → Bool
  | .undefined => false
  | .null => false
  | .bool b => b
  | .num n => n != 0
  | .str s => s != ""
  | .obj _ => true

/-- The loose inequality `result != null` from the source: under
JavaScript loose equality both `null` and `undefined` equal `null`,
every other value does not. -/
def looseNeNull : JSValue → Bool
  | .null => false
  | .undefined => false
  | _ => true

/-- The state of a JavaScript `Promise`: pending, fulfilled with a
value, or rejected with a value. -/
inductive PromiseState where
  | pending
  | fulfilled (v : JSValue)
  | rejected (v : JSValue)
  deriving DecidableEq, Repr

/-- The `resolve` callback of the promise executor: settles a pending
promise, and is a no-op on an already settled one (ECMAScript promise
semantics). -/
def resolveP : PromiseState → JSValue → PromiseState
  | .pending, v => .fulfilled v
  | s, _ => s

/-- The `reject` callback of the promise executor: settles a pending
promise as rejected, and is a no-op on an already settled one. -/
def rejectP : PromiseState → JSValue → PromiseState
  | .pending, v => .rejected v
  | s, _ => s

/-- Modelled from the spec: `src/background/constants.ts` is not part of
the provided sources.  Per spec section 4.1 the Channel registry is the
closed set of five operation channels. -/
inductive Chan where
  | ENABLE_AUTOSTART
  | DISABLE_AUTOSTART
  | GET_AUTOSTART_STATUS
  | GET_USER_SETTINGS
  | SAVE_USER_SETTINGS
  deriving DecidableEq, Repr

/-- Modelled from the spec: the fixed reply channels paired with the
three request-response operations (`constants.ts` is not in the
provided sources). -/
inductive ReplyChan where
  | autostartStatusReply
  | userSettingsReply
  | saveSettingsReply
  deriving DecidableEq, Repr

/-- Modelled from the spec: `REPLY_BY_CHANNEL` of `constants.ts` — a
pure total lookup from a request channel to its fixed reply channel,
defined exactly on the request-response operations; looking up a
fire-and-forget channel has no answer (a programming error in the
source, fail-fast). -/
def REPLY_BY_CHANNEL : Chan → Option ReplyChan
  | .GET_AUTOSTART_STATUS => some .autostartStatusReply
  | .GET_USER_SETTINGS => some .userSettingsReply
  | .SAVE_USER_SETTINGS => some .saveSettingsReply
  | _ => none

/-- Identifies which of the three request-response callbacks a
registered listener runs. -/
inductive Op where
  | autostartTaskExist
  | getUserSettings
  | saveUserSettings
  deriving DecidableEq, Repr

/-- The reply callback of `autostartTaskExist`
(`preload.ts` lines 16-21): reject on a truthy error, otherwise
resolve with `result != null`. -/
def autostartTaskExistCallback (result error : JSValue) (p : PromiseState) : PromiseState :=
  if truthy error then rejectP p error
  else resolveP p (.bool (looseNeNull result))

/-- The reply callback of `getUserSettings`
(`preload.ts` lines 27-32): reject on a truthy error, otherwise
resolve with the result payload itself. -/
def getUserSettingsCallback (result error : JSValue) (p : PromiseState) : PromiseState :=
  if truthy error then rejectP p error
  else resolveP p result

/-- The reply callback of `saveUserSettings`
(`preload.ts` lines 38-43): reject on a truthy error, otherwise
resolve with no value (`resolve()` passes `undefined`). -/
def saveUserSettingsCallback (result error : JSValue) (p : PromiseState) : PromiseState :=
  if truthy error then rejectP p error
  else resolveP p .undefined

/-- Dispatch to the callback registered by each operation. -/
def callbackOf : Op → JSValue → JSValue → PromiseState → PromiseState
  | .autostartTaskExist => autostartTaskExistCallback
  | .getUserSettings => getUserSettingsCallback
  | .saveUserSettings => saveUserSettingsCallback

/-- A message sent to the privileged process by `ipcRenderer.send`:
the channel plus the (possibly empty) argument list. -/
structure Message where
  chan : Chan
  args : List JSValue
  deriving DecidableEq, Repr

/-- A listener registered by `ipcRenderer.on`: the reply channel it
listens on, the callback it runs, and the promise it settles. -/
structure Listener where
  chan : ReplyChan
  op : Op
  promiseId : Nat
  deriving DecidableEq, Repr

/-- The observable state of the bridge client: the messages sent so
far, the listener table of `ipcRenderer` (in registration order),
a fresh-id counter for promises, and the promise store. -/
structure BridgeState where
  sent : List Message
  listeners : List Listener
  nextId : Nat
  promises : Nat → PromiseState

/-- The bridge state at preload time: nothing sent, no listeners, no
promises created. -/
def initState : BridgeState :=
  { sent := [], listeners := [], nextId := 0, promises := fun _ => .pending }

/-- Point update of the promise store. -/
def setPromise (f : Nat → PromiseState) (i : Nat) (v : PromiseState) : Nat → PromiseState :=
  fun j => if j = i then v else f j

/-- `enableAutostart` (`preload.ts` lines 7-9): sends the
`ENABLE_AUTOSTART` message and returns immediately with no value; it is
a total function of the state, so it can never throw. -/
def enableAutostart (s : BridgeState) : BridgeState :=
  { s with sent := s.sent ++ [⟨.ENABLE_AUTOSTART, []⟩] }

/-- `disableAutostart` (`preload.ts` lines 10-12): sends the
`DISABLE_AUTOSTART` message and returns immediately with no value. -/
def disableAutostart (s : BridgeState) : BridgeState :=
  { s with sent := s.sent ++ [⟨.DISABLE_AUTOSTART, []⟩] }

/-- `autostartTaskExist` (`preload.ts` lines 13-23): creates a fresh
pending promise, sends `GET_AUTOSTART_STATUS`, and registers a
persistent listener (`ipcRenderer.on`) on
`REPLY_BY_CHANNEL[GET_AUTOSTART_STATUS]`.  Returns the new state and
the id of the returned promise. -/
def autostartTaskExist (s : BridgeState) : BridgeState × Nat :=
  ({ sent := s.sent ++ [⟨.GET_AUTOSTART_STATUS, []⟩],
     listeners := s.listeners ++
       [⟨(REPLY_BY_CHANNEL .GET_AUTOSTART_STATUS).get rfl, .autostartTaskExist, s.nextId⟩],
     nextId := s.nextId + 1,
     promises := setPromise s.promises s.nextId .pending }, s.nextId)

/-- `getUserSettings` (`preload.ts` lines 24-34): creates a fresh
pending promise, sends `GET_USER_SETTINGS` with the optional route
argument (`undefined` when absent), and registers a persistent listener
on `REPLY_BY_CHANNEL[GET_USER_SETTINGS]`.  The source marks the
function `async`, which wraps the inner promise in another that adopts
its state, so the observable settlement is the same. -/
def getUserSettings (s : BridgeState) (route : JSValue) : BridgeState × Nat :=
  ({ sent := s.sent ++ [⟨.GET_USER_SETTINGS, [route]⟩],
     listeners := s.listeners ++
       [⟨(REPLY_BY_CHANNEL .GET_USER_SETTINGS).get rfl, .getUserSettings, s.nextId⟩],
     nextId := s.nextId + 1,
     promises := setPromise s.promises s.nextId .pending }, s.nextId)

/-- `saveUserSettings` (`preload.ts` lines 35-45): creates a fresh
pending promise, sends `SAVE_USER_SETTINGS` with the settings object,
and registers a persistent listener on
`REPLY_BY_CHANNEL[SAVE_USER_SETTINGS]`. -/
def saveUserSettings (s : BridgeState) (settings : JSValue) : BridgeState × Nat :=
  ({ sent := s.sent ++ [⟨.SAVE_USER_SETTINGS, [settings]⟩],
     listeners := s.listeners ++
       [⟨(REPLY_BY_CHANNEL .SAVE_USER_SETTINGS).get rfl, .saveUserSettings, s.nextId⟩],
     nextId := s.nextId + 1,
     promises := setPromise s.promises s.nextId .pending }, s.nextId)

/-- Event delivery of `ipcRenderer`: an incoming message on a reply
channel runs every listener registered on that channel, in registration
order, each callback acting on its own promise. -/
def fireListeners : List Listener → ReplyChan → JSValue → JSValue →
    (Nat → PromiseState) → Nat → PromiseState
  | [], _, _, _, ps => ps
  | l :: ls, ch, result, error, ps =>
      fireListeners ls ch result error
        (if l.chan = ch then
           setPromise ps l.promiseId (callbackOf l.op result error (ps l.promiseId))
         else ps)

/-- Delivery of a reply envelope `(result, error)` on a reply channel:
the listener table is unchanged (listeners registered with `on` are
persistent), and every matching listener's callback runs. -/
def deliver (s : BridgeState) (ch : ReplyChan) (result error : JSValue) : BridgeState :=
  { s with promises := fireListeners s.listeners ch result error s.promises }

/-- One atomic event of the bridge client's event loop: an API
invocation by the sandboxed page, or the delivery of a reply message
from the privileged process. -/
inductive Step where
  | enable
  | disable
  | autostart
  | getSettings (route : JSValue)
  | saveSettings (settings : JSValue)
  | reply (ch : ReplyChan) (result error : JSValue)

/-- Interpretation of one step on the bridge state. -/
def runStep (s : BridgeState) : Step → BridgeState
  | .enable => enableAutostart s
  | .disable => disableAutostart s
  | .autostart => (autostartTaskExist s).1
  | .getSettings route => (getUserSettings s route).1
  | .saveSettings v => (saveUserSettings s v).1
  | .reply ch result error => deliver s ch result error

/-- Interpretation of a sequence of steps. -/
def run (s : BridgeState) (steps : List Step) : BridgeState :=
  steps.foldl runStep s

/-- Well-formedness of a bridge state: every registered listener
settles a promise that has already been allocated. -/
def WF (s : BridgeState) : Prop :=
  ∀ l ∈ s.listeners, l.promiseId < s.nextId

/-- Whether a step is the delivery of a reply on the given reply
channel. -/
def repliesOn : Step → ReplyChan → Bool
  | .reply ch _ _, ch0 => ch = ch0
  | _, _ => false

/-- Every reply callback leaves an already settled promise unchanged,
because `resolve` and `reject` are no-ops after settlement. -/
theorem callbackOf_settled (op : Op) (result error : JSValue) (p : PromiseState)
    (hp : p ≠ .pending) : callbackOf op result error p = p := by
  cases p with
  | pending => exact absurd rfl hp
  | fulfilled v => cases op <;> simp [callbackOf, autostartTaskExistCallback,
      getUserSettingsCallback, saveUserSettingsCallback, rejectP, resolveP]
  | rejected v => cases op <;> simp [callbackOf, autostartTaskExistCallback,
      getUserSettingsCallback, saveUserSettingsCallback, rejectP, resolveP]

/-- Reading the promise store after a point update elsewhere. -/
theorem setPromise_ne (f : Nat → PromiseState) (i j : Nat) (v : PromiseState)
    (h : j ≠ i) : setPromise f i v j = f j := by
  simp [setPromise, h]

/-- Reading the promise store at a just-updated point. -/
theorem setPromise_eq (f : Nat → PromiseState) (i : Nat) (v : PromiseState) :
    setPromise f i v i = v := by
  simp [setPromise]

/-- Firing a batch of listeners none of which targets promise `pid` on
the delivered channel leaves that promise unchanged. -/
theorem fireListeners_untargeted (ls : List Listener) (ch : ReplyChan)
    (result error : JSValue) (ps : Nat → PromiseState) (pid : Nat)
    (h : ∀ l ∈ ls, l.chan = ch → l.promiseId ≠ pid) :
    fireListeners ls ch result error ps pid = ps pid := by
  induction ls generalizing ps with
  | nil => rfl
  | cons l ls ih =>
      simp only [fireListeners]
      rw [ih _ fun x hx => h x (List.mem_cons_of_mem l hx)]
      split
      · next hch =>
          exact setPromise_ne ps l.promiseId pid _
            (Ne.symm (h l (List.mem_cons_self l ls) hch))
      · rfl

/-- Firing listeners is compositional over the listener table. -/
theorem fireListeners_append (ls₁ ls₂ : List Listener) (ch : ReplyChan)
    (result error : JSValue) (ps : Nat → PromiseState) :
    fireListeners (ls₁ ++ ls₂) ch result error ps =
      fireListeners ls₂ ch result error (fireListeners ls₁ ch result error ps) := by
  induction ls₁ generalizing ps with
  | nil => rfl
  | cons l ls ih =>
      simp only [List.cons_append, fireListeners]
      exact ih _

/-- A settled promise stays settled, with the same value, across any
listener batch: each callback is a no-op on a settled promise. -/
theorem fireListeners_settled (ls : List Listener) (ch : ReplyChan)
    (result error : JSValue) (ps : Nat → PromiseState) (pid : Nat)
    (hp : ps pid ≠ .pending) :
    fireListeners ls ch result error ps pid = ps pid := by
  induction ls generalizing ps with
  | nil => rfl
  | cons l ls ih =>
      simp only [fireListeners]
      split
      · next hch =>
          by_cases hid : l.promiseId = pid
          · subst hid
            rw [callbackOf_settled _ _ _ _ hp]
            have hset : setPromise ps l.promiseId (ps l.promiseId) = ps := by
              funext j
              by_cases hj : j = l.promiseId
              · subst hj; exact setPromise_eq ..
              · exact setPromise_ne _ _ _ _ hj
            rw [hset]
            exact ih ps hp
          · rw [ih _ (by rw [setPromise_ne ps l.promiseId pid _ (Ne.symm hid)]; exact hp)]
            exact setPromise_ne ps l.promiseId pid _ (Ne.symm hid)
      · exact ih ps hp

/-- Delivering a reply to a listener table whose last entry is a fresh
listener (targeting a promise id strictly above every earlier target)
settles the fresh promise exactly as the fresh listener's callback
dictates, starting from pending. -/
theorem fireListeners_fresh (ls : List Listener) (n : Nat)
    (h : ∀ l ∈ ls, l.promiseId < n) (ch : ReplyChan) (op : Op)
    (result error : JSValue) (ps : Nat → PromiseState) :
    fireListeners (ls ++ [⟨ch, op, n⟩]) ch result error (setPromise ps n .pending) n
      = callbackOf op result error .pending := by
  rw [fireListeners_append]
  have hbase : fireListeners ls ch result error (setPromise ps n .pending) n = .pending := by
    rw [fireListeners_untargeted ls ch result error _ n
      (fun l hl _ => Nat.ne_of_lt (h l hl))]
    exact setPromise_eq ..
  simp [fireListeners, hbase, setPromise_eq]

/-- Invoking `getUserSettings` and then delivering `(result, error)` on
the user-settings reply channel settles the returned promise exactly as
the source callback dictates. -/
theorem getUserSettings_deliver (s : BridgeState) (hWF : WF s)
    (route result error : JSValue) :
    (deliver (getUserSettings s route).1 .userSettingsReply result error).promises
      (getUserSettings s route).2 = getUserSettingsCallback result error .pending := by
  have := fireListeners_fresh s.listeners s.nextId hWF .userSettingsReply
    .getUserSettings result error s.promises
  simpa [deliver, getUserSettings, callbackOf] using this

/-- Invoking `autostartTaskExist` and then delivering `(result, error)`
on the autostart-status reply channel settles the returned promise
exactly as the source callback dictates. -/
theorem autostartTaskExist_deliver (s : BridgeState) (hWF : WF s)
    (result error : JSValue) :
    (deliver (autostartTaskExist s).1 .autostartStatusReply result error).promises
      (autostartTaskExist s).2 = autostartTaskExistCallback result error .pending := by
  have := fireListeners_fresh s.listeners s.nextId hWF .autostartStatusReply
    .autostartTaskExist result error s.promises
  simpa [deliver, autostartTaskExist, callbackOf] using this

/-- Invoking `saveUserSettings` and then delivering `(result, error)`
on the save-settings reply channel settles the returned promise exactly
as the source callback dictates. -/
theorem saveUserSettings_deliver (s : BridgeState) (hWF : WF s)
    (settings result error : JSValue) :
    (deliver (saveUserSettings s settings).1 .saveSettingsReply result error).promises
      (saveUserSettings s settings).2 = saveUserSettingsCallback result error .pending := by
  have := fireListeners_fresh s.listeners s.nextId hWF .saveSettingsReply
    .saveUserSettings result error s.promises
  simpa [deliver, saveUserSettings, callbackOf] using this

/-- The preload-time state is well formed: it has no listeners. -/
theorem WF_initState : WF initState :=
  fun l hl => absurd hl (List.not_mem_nil l)

/-- Claim C1, counterexample.  The claim demands rejection for every
present error value, but the source tests `if (error)` — JavaScript
truthiness — so a reply whose error payload is the present-but-falsy
value `false` does not reject: the `getUserSettings` future fulfills
with the result payload instead. -/
theorem present_falsy_error_not_rejected :
    (deliver (getUserSettings initState .undefined).1 .userSettingsReply
        (.obj 0) (.bool false)).promises 0 = .fulfilled (.obj 0) ∧
    (deliver (getUserSettings initState .undefined).1 .userSettingsReply
        (.obj 0) (.bool false)).promises 0 ≠ .rejected (.bool false) := by
  exact ⟨rfl, by decide⟩

/-- Claim C1, amended.  For every request-response operation
(`autostartTaskExist`, `getUserSettings`, `saveUserSettings`), if the
delivered reply carries a truthy error payload, the returned future
rejects with exactly that error value, unmodified and unwrapped; a
present but falsy error payload is treated as absence of error. -/
theorem truthy_error_rejected_verbatim (s : BridgeState) (hWF : WF s)
    (route settings result error : JSValue) (he : truthy error = true) :
    (deliver (autostartTaskExist s).1 .autostartStatusReply result error).promises
        (autostartTaskExist s).2 = .rejected error ∧
    (deliver (getUserSettings s route).1 .userSettingsReply result error).promises
        (getUserSettings s route).2 = .rejected error ∧
    (deliver (saveUserSettings s settings).1 .saveSettingsReply result error).promises
        (saveUserSettings s settings).2 = .rejected error := by
  refine ⟨?_, ?_, ?_⟩
  · rw [autostartTaskExist_deliver s hWF result error]
    simp [autostartTaskExistCallback, he, rejectP]
  · rw [getUserSettings_deliver s hWF route result error]
    simp [getUserSettingsCallback, he, rejectP]
  · rw [saveUserSettings_deliver s hWF settings result error]
    simp [saveUserSettingsCallback, he, rejectP]

/-- Witness for the amended C1 theorem at concrete inputs. -/
theorem truthy_error_rejected_verbatim_witness :
    WF initState ∧ truthy (.str "boom") = true ∧
    (deliver (getUserSettings initState .null).1 .userSettingsReply
        (.obj 0) (.str "boom")).promises
      (getUserSettings initState .null).2 = .rejected (.str "boom") :=
  ⟨WF_initState, by decide,
   (truthy_error_rejected_verbatim initState WF_initState .null .null
      (.obj 0) (.str "boom") (by decide)).2.1⟩

/-- Claim C2, counterexample.  The claim says the listener is
eventually deregistered and does not outlive the call's settlement, but
the source registers with `ipcRenderer.on` and never removes the
listener: after `autostartTaskExist` is invoked and its reply delivered
(settling the future), the listener is still registered. -/
theorem listener_outlives_settlement :
    (deliver (autostartTaskExist initState).1 .autostartStatusReply
        (.obj 0) .undefined).promises 0 ≠ .pending ∧
    (deliver (autostartTaskExist initState).1 .autostartStatusReply
        (.obj 0) .undefined).listeners
      = [⟨.autostartStatusReply, .autostartTaskExist, 0⟩] := by
  exact ⟨by decide, rfl⟩

/-- Claim C2, amended.  Each request-response invocation sends exactly
one message to the privileged process and registers exactly one
listener on the operation's reply channel, but the listener is never
deregistered: reply delivery leaves the listener table unchanged, so
the listener outlives the call's settlement. -/
theorem one_message_one_persistent_listener (s : BridgeState)
    (route settings : JSValue) (ch : ReplyChan) (result error : JSValue) :
    (autostartTaskExist s).1.sent = s.sent ++ [⟨.GET_AUTOSTART_STATUS, []⟩] ∧
    (autostartTaskExist s).1.listeners
      = s.listeners ++ [⟨.autostartStatusReply, .autostartTaskExist, s.nextId⟩] ∧
    (getUserSettings s route).1.sent = s.sent ++ [⟨.GET_USER_SETTINGS, [route]⟩] ∧
    (getUserSettings s route).1.listeners
      = s.listeners ++ [⟨.userSettingsReply, .getUserSettings, s.nextId⟩] ∧
    (saveUserSettings s settings).1.sent
      = s.sent ++ [⟨.SAVE_USER_SETTINGS, [settings]⟩] ∧
    (saveUserSettings s settings).1.listeners
      = s.listeners ++ [⟨.saveSettingsReply, .saveUserSettings, s.nextId⟩] ∧
    (deliver s ch result error).listeners = s.listeners :=
  ⟨rfl, rfl, rfl, rfl, rfl, rfl, rfl⟩

/-- Claim C3.  For every reply delivered to `getUserSettings` with a
result payload and no error (`undefined` or `null`), the returned
future resolves with exactly that result payload, unchanged, for every
payload value. -/
theorem getUserSettings_result_roundtrip (s : BridgeState) (hWF : WF s)
    (route result error : JSValue)
    (he : error = .undefined ∨ error = .null) :
    (deliver (getUserSettings s route).1 .userSettingsReply result error).promises
      (getUserSettings s route).2 = .fulfilled result := by
  rw [getUserSettings_deliver s hWF route result error]
  rcases he with h | h <;> subst h <;>
    simp [getUserSettingsCallback, truthy, resolveP]

/-- Witness for C3 at concrete inputs. -/
theorem getUserSettings_result_roundtrip_witness :
    WF initState ∧
    (deliver (getUserSettings initState .undefined).1 .userSettingsReply
        (.obj 7) .undefined).promises
      (getUserSettings initState .undefined).2 = .fulfilled (.obj 7) :=
  ⟨WF_initState,
   getUserSettings_result_roundtrip initState WF_initState .undefined
     (.obj 7) .undefined (Or.inl rfl)⟩

/-- Claim C4.  For every reply delivered to `autostartTaskExist`
without an error payload, the future resolves with a boolean — `true`
exactly when the result payload is neither `null` nor absent
(`undefined`), `false` otherwise — and never with a non-boolean
value. -/
theorem autostartTaskExist_boolean (s : BridgeState) (hWF : WF s)
    (result error : JSValue)
    (he : error = .undefined ∨ error = .null) :
    (deliver (autostartTaskExist s).1 .autostartStatusReply result error).promises
        (autostartTaskExist s).2 = .fulfilled (.bool (looseNeNull result)) ∧
    (looseNeNull result = true ↔ result ≠ .null ∧ result ≠ .undefined) := by
  constructor
  · rw [autostartTaskExist_deliver s hWF result error]
    rcases he with h | h <;> subst h <;>
      simp [autostartTaskExistCallback, truthy, resolveP]
  · cases result <;> simp [looseNeNull]

/-- Witness for C4 at concrete inputs. -/
theorem autostartTaskExist_boolean_witness :
    WF initState ∧
    ((deliver (autostartTaskExist initState).1 .autostartStatusReply
        (.str "task") .undefined).promises
      (autostartTaskExist initState).2 = .fulfilled (.bool true)) :=
  ⟨WF_initState,
   (autostartTaskExist_boolean initState WF_initState (.str "task")
      .undefined (Or.inl rfl)).1⟩

/-- Claim C5.  `enableAutostart` and `disableAutostart` are total
functions of the bridge state (so they can never throw), return no
promise and no value, send exactly their one request message, and
surface nothing to the caller: listeners, promise store and promise
counter are untouched whatever the privileged side does (which cannot
affect them at all, since no reply is awaited). -/
theorem fire_and_forget_send_only (s : BridgeState) :
    (enableAutostart s).sent = s.sent ++ [⟨.ENABLE_AUTOSTART, []⟩] ∧
    (enableAutostart s).listeners = s.listeners ∧
    (enableAutostart s).promises = s.promises ∧
    (enableAutostart s).nextId = s.nextId ∧
    (disableAutostart s).sent = s.sent ++ [⟨.DISABLE_AUTOSTART, []⟩] ∧
    (disableAutostart s).listeners = s.listeners ∧
    (disableAutostart s).promises = s.promises ∧
    (disableAutostart s).nextId = s.nextId :=
  ⟨rfl, rfl, rfl, rfl, rfl, rfl, rfl, rfl⟩

/-- Claim C6.  For every reply delivered to `saveUserSettings` without
an error payload, the returned future resolves with no value
(`undefined`), regardless of what result payload, if any, the reply
carries. -/
theorem saveUserSettings_resolves_void (s : BridgeState) (hWF : WF s)
    (settings result error : JSValue)
    (he : error = .undefined ∨ error = .null) :
    (deliver (saveUserSettings s settings).1 .saveSettingsReply result error).promises
      (saveUserSettings s settings).2 = .fulfilled .undefined := by
  rw [saveUserSettings_deliver s hWF settings result error]
  rcases he with h | h <;> subst h <;>
    simp [saveUserSettingsCallback, truthy, resolveP]

/-- Witness for C6 at concrete inputs: the reply carries a result
payload, which is discarded. -/
theorem saveUserSettings_resolves_void_witness :
    WF initState ∧
    (deliver (saveUserSettings initState (.obj 1)).1 .saveSettingsReply
        (.obj 3) .null).promises
      (saveUserSettings initState (.obj 1)).2 = .fulfilled .undefined :=
  ⟨WF_initState,
   saveUserSettings_resolves_void initState WF_initState (.obj 1)
     (.obj 3) .null (Or.inr rfl)⟩

/-- A pending promise targeted by no listener outside its own reply
channel stays pending across any run whose steps never deliver on that
channel; the invariant carries the promise id bound and the listener
discipline through every step. -/
theorem run_keeps_pending (ch0 : ReplyChan) (pid : Nat) (steps : List Step)
    (t : BridgeState)
    (hsteps : ∀ st ∈ steps, repliesOn st ch0 = false)
    (hpend : t.promises pid = .pending)
    (hlt : pid < t.nextId)
    (hl : ∀ l ∈ t.listeners, l.chan ≠ ch0 → l.promiseId ≠ pid) :
    (run t steps).promises pid = .pending := by
  induction steps generalizing t with
  | nil => exact hpend
  | cons st steps ih =>
      have hst := hsteps st (List.mem_cons_self st steps)
      have hrest : ∀ s2 ∈ steps, repliesOn s2 ch0 = false :=
        fun s2 hs2 => hsteps s2 (List.mem_cons_of_mem st hs2)
      cases st with
      | enable => exact ih _ hrest hpend hlt hl
      | disable => exact ih _ hrest hpend hlt hl
      | autostart =>
          refine ih _ hrest ?_ (Nat.lt_succ_of_lt hlt) ?_
          · show setPromise t.promises t.nextId .pending pid = .pending
            rw [setPromise_ne _ _ _ _ (Nat.ne_of_lt hlt)]
            exact hpend
          · intro l hm hchan
            rcases List.mem_append.mp hm with hmem | hmem
            · exact hl l hmem hchan
            · rcases List.mem_singleton.mp hmem with rfl
              exact Nat.ne_of_gt hlt
      | getSettings route =>
          refine ih _ hrest ?_ (Nat.lt_succ_of_lt hlt) ?_
          · show setPromise t.promises t.nextId .pending pid = .pending
            rw [setPromise_ne _ _ _ _ (Nat.ne_of_lt hlt)]
            exact hpend
          · intro l hm hchan
            rcases List.mem_append.mp hm with hmem | hmem
            · exact hl l hmem hchan
            · rcases List.mem_singleton.mp hmem with rfl
              exact Nat.ne_of_gt hlt
      | saveSettings v =>
          refine ih _ hrest ?_ (Nat.lt_succ_of_lt hlt) ?_
          · show setPromise t.promises t.nextId .pending pid = .pending
            rw [setPromise_ne _ _ _ _ (Nat.ne_of_lt hlt)]
            exact hpend
          · intro l hm hchan
            rcases List.mem_append.mp hm with hmem | hmem
            · exact hl l hmem hchan
            · rcases List.mem_singleton.mp hmem with rfl
              exact Nat.ne_of_gt hlt
      | reply ch r e =>
          have hch : ch ≠ ch0 := of_decide_eq_false hst
          refine ih _ hrest ?_ hlt hl
          show fireListeners t.listeners ch r e t.promises pid = .pending
          rw [fireListeners_untargeted _ _ _ _ _ _
            (fun l hm hc => hl l hm (by rw [hc]; exact hch))]
          exact hpend

/-- Claim C7.  If no reply is ever delivered on the user-settings reply
channel, the future returned by `getUserSettings` never settles,
whatever other invocations and deliveries happen: there is no timeout
or cancellation path. -/
theorem no_reply_never_settles (s : BridgeState) (hWF : WF s)
    (route : JSValue) (steps : List Step)
    (hsteps : ∀ st ∈ steps, repliesOn st .userSettingsReply = false) :
    (run (getUserSettings s route).1 steps).promises
      (getUserSettings s route).2 = .pending := by
  refine run_keeps_pending .userSettingsReply s.nextId steps _ hsteps ?_ ?_ ?_
  · show setPromise s.promises s.nextId .pending s.nextId = .pending
    exact setPromise_eq ..
  · exact Nat.lt_succ_self _
  · intro l hm hchan
    rcases List.mem_append.mp hm with hmem | hmem
    · exact Nat.ne_of_lt (hWF l hmem)
    · rcases List.mem_singleton.mp hmem with rfl
      exact absurd rfl hchan

/-- Witness for C7: a run with other invocations and replies on other
channels, but none on the user-settings reply channel, leaves the
`getUserSettings` future pending. -/
theorem no_reply_never_settles_witness :
    WF initState ∧
    (∀ st ∈ [Step.enable, Step.autostart,
        Step.reply .autostartStatusReply (.obj 0) .undefined,
        Step.saveSettings (.obj 1),
        Step.reply .saveSettingsReply .null .undefined],
      repliesOn st .userSettingsReply = false) ∧
    (run (getUserSettings initState .undefined).1
        [Step.enable, Step.autostart,
         Step.reply .autostartStatusReply (.obj 0) .undefined,
         Step.saveSettings (.obj 1),
         Step.reply .saveSettingsReply .null .undefined]).promises
      (getUserSettings initState .undefined).2 = .pending :=
  ⟨WF_initState, by decide,
   no_reply_never_settles initState WF_initState .undefined _ (by decide)⟩

/-- Claim C8.  Two sequential `getUserSettings` invocations, the second
made after the first's reply has settled it, with replies delivered in
send order, each settle with their own reply payload: the first future
with the first result, the second with the second result. -/
theorem sequential_calls_correlated (route1 route2 r1 r2 : JSValue) :
    (deliver (getUserSettings (deliver (getUserSettings initState route1).1
          .userSettingsReply r1 .undefined) route2).1
        .userSettingsReply r2 .undefined).promises 0 = .fulfilled r1 ∧
    (deliver (getUserSettings (deliver (getUserSettings initState route1).1
          .userSettingsReply r1 .undefined) route2).1
        .userSettingsReply r2 .undefined).promises 1 = .fulfilled r2 :=
  ⟨rfl, rfl⟩

/-- Claim C9.  Settlement is idempotent: once a promise is settled, any
further reply delivered on any reply channel leaves its settled value
unchanged — `resolve` and `reject` are no-ops after settlement, so a
persistent listener causes no double-resolution. -/
theorem settlement_idempotent (s : BridgeState) (ch : ReplyChan)
    (result error : JSValue) (pid : Nat)
    (hset : s.promises pid ≠ .pending) :
    (deliver s ch result error).promises pid = s.promises pid :=
  fireListeners_settled s.listeners ch result error s.promises pid hset

/-- Witness for C9: after a first reply settles the `autostartTaskExist`
future, a second, contradictory reply on the same channel leaves the
settled value unchanged. -/
theorem settlement_idempotent_witness :
    (deliver (autostartTaskExist initState).1 .autostartStatusReply
        (.obj 0) .undefined).promises 0 ≠ .pending ∧
    (deliver (deliver (autostartTaskExist initState).1 .autostartStatusReply
        (.obj 0) .undefined) .autostartStatusReply .null (.str "late")).promises 0
      = (deliver (autostartTaskExist initState).1 .autostartStatusReply
          (.obj 0) .undefined).promises 0 :=
  ⟨by decide,
   settlement_idempotent _ .autostartStatusReply .null (.str "late") 0 (by decide)⟩

/-- Claim C10.  When a single reply carries both a truthy error payload
and a present (non-null, non-undefined) result payload, every
request-response future rejects with the error value and the result
payload is discarded: the error branch is tested first and returns
early. -/
theorem error_precedence_over_result (s : BridgeState) (hWF : WF s)
    (route settings result error : JSValue) (he : truthy error = true)
    (hr : result ≠ .null ∧ result ≠ .undefined) :
    (deliver (autostartTaskExist s).1 .autostartStatusReply result error).promises
        (autostartTaskExist s).2 = .rejected error ∧
    (deliver (getUserSettings s route).1 .userSettingsReply result error).promises
        (getUserSettings s route).2 = .rejected error ∧
    (deliver (saveUserSettings s settings).1 .saveSettingsReply result error).promises
        (saveUserSettings s settings).2 = .rejected error := by
  refine ⟨?_, ?_, ?_⟩
  · rw [autostartTaskExist_deliver s hWF result error]
    simp [autostartTaskExistCallback, he, rejectP]
  · rw [getUserSettings_deliver s hWF route result error]
    simp [getUserSettingsCallback, he, rejectP]
  · rw [saveUserSettings_deliver s hWF settings result error]
    simp [saveUserSettingsCallback, he, rejectP]

/-- Witness for C10 at concrete inputs: a reply carrying both a result
object and a numeric error rejects all three operations with the
error. -/
theorem error_precedence_over_result_witness :
    WF initState ∧ truthy (.num 5) = true ∧
    ((.obj 2 : JSValue) ≠ .null ∧ (.obj 2 : JSValue) ≠ .undefined) ∧
    (deliver (saveUserSettings initState (.obj 9)).1 .saveSettingsReply
        (.obj 2) (.num 5)).promises
      (saveUserSettings initState (.obj 9)).2 = .rejected (.num 5) :=
  ⟨WF_initState, by decide, by decide,
   (error_precedence_over_result initState WF_initState .undefined (.obj 9)
      (.obj 2) (.num 5) (by decide) (by decide)).2.2⟩

end SeelenBridge
